import Mathlib

/-!
Verification of the authentication backend (Express/Mongoose project
management API): a shallow embedding of the credential and token
lifecycle engine — user model, auth controllers and auth middlewares —
together with theorems settling the specification claims.

External collaborators (bcrypt, node crypto SHA-256, jsonwebtoken,
randomness, the clock) are passed in as explicit function parameters;
the repository code that orchestrates them is translated definitionally.
-/

namespace AuthBackend

/-- A JavaScript value, as far as the embedded code needs: property
lookups on objects may yield `undefined`, strings and numbers. -/
inductive JsVal where
  | undef : JsVal
  | str : String → JsVal
  | num : Nat → JsVal
  deriving DecidableEq, Repr

/-- A JavaScript object modelled as an association list of properties;
reading an absent property yields `undefined` (JS semantics). -/
def jsGet (o : List (String × JsVal)) (k : String) : JsVal :=
  match o.find? (fun p => p.1 == k) with
  | some p => p.2
  | none => JsVal.undef

/-- Mongoose assignment semantics for a string path: assigning
`undefined` unsets the field, assigning a string sets it. -/
def jsValToOptStr : JsVal → Option String
  | JsVal.str s => some s
  | _ => none

/-- Mongoose assignment semantics for a date/number path. -/
def jsValToOptNat : JsVal → Option Nat
  | JsVal.num n => some n
  | _ => none

/-- JS truthiness of an optional string: `undefined` and the empty
string are falsy (a JS or-expression falls through on both). -/
def jsTruthyStr : Option String → Option String
  | some s => if s == "" then none else some s
  | none => none

/-- JS `a || b` on optional strings, with falsiness of the empty string. -/
def jsOrStr (a b : Option String) : Option String :=
  match jsTruthyStr a with
  | some s => some s
  | none => b

/-- JS `String.prototype.replace` with a string pattern on character
lists: only the FIRST occurrence of the pattern is replaced; if the
pattern does not occur the input is returned unchanged. -/
def replaceFirstL (pat rep : List Char) : List Char → List Char
  | [] => if pat.isPrefixOf ([] : List Char) then rep else []
  | c :: rest =>
      if pat.isPrefixOf (c :: rest) then rep ++ (c :: rest).drop pat.length
      else c :: replaceFirstL pat rep rest

/-- Whether `pat` occurs as a contiguous substring of the list. -/
def occursSub (pat : List Char) : List Char → Bool
  | [] => pat.isPrefixOf ([] : List Char)
  | c :: rest => pat.isPrefixOf (c :: rest) || occursSub pat rest

/-- JS `s.replace(pat, rep)` for string pattern: first occurrence only. -/
def jsReplaceFirst (s pat rep : String) : String :=
  String.mk (replaceFirstL pat.toList rep.toList s.toList)

/-- The standardized API error (`ApiError`): an HTTP status code and a
message (`utils/api-error.js`). -/
structure ApiErr where
  statusCode : Nat
  message : String
  deriving DecidableEq, Repr

/-- A user document, with the authentication-relevant fields of the
`userSchema` (`models/user.models.js`).  Optional fields model schema
paths without `required`, which Mongoose leaves unset until assigned. -/
structure UserDoc where
  id : Nat
  username : String
  email : String
  password : String
  isEmailVerified : Bool
  refreshToken : Option String
  forgotPasswordToken : Option String
  forgotPasswordExpiry : Option Nat
  emailVerificationToken : Option String
  emailVerificationExpiry : Option Nat
  deriving DecidableEq, Repr

/-- The projection performed by
`.select("-password -refreshToken -emailVerificationToken -emailVerificationExpiry")`:
exactly those four paths are dropped; every other path of the document
is kept (in particular the forgot-password pair). -/
structure PublicUser where
  id : Nat
  username : String
  email : String
  isEmailVerified : Bool
  forgotPasswordToken : Option String
  forgotPasswordExpiry : Option Nat
  deriving DecidableEq, Repr

/-- Apply the four-field exclusion `select` to a user document. -/
def selectSansSecrets (u : UserDoc) : PublicUser :=
  { id := u.id
  , username := u.username
  , email := u.email
  , isEmailVerified := u.isEmailVerified
  , forgotPasswordToken := u.forgotPasswordToken
  , forgotPasswordExpiry := u.forgotPasswordExpiry }

/-- JSON serialization of a selected user: unset optional paths are
absent from the output object (Mongoose omits undefined paths). -/
def publicUserJson (p : PublicUser) : List (String × JsVal) :=
  [ ("_id", JsVal.num p.id)
  , ("username", JsVal.str p.username)
  , ("email", JsVal.str p.email)
  , ("isEmailVerified", if p.isEmailVerified then JsVal.num 1 else JsVal.num 0) ]
  ++ (match p.forgotPasswordToken with
      | some t => [("forgotPasswordToken", JsVal.str t)]
      | none => [])
  ++ (match p.forgotPasswordExpiry with
      | some e => [("forgotPasswordExpiry", JsVal.num e)]
      | none => [])

/-- Whether a serialized object contains a property with the given key. -/
def containsKey (o : List (String × JsVal)) (k : String) : Bool :=
  o.any (fun p => p.1 == k)

/-- The six secret paths of the user document per the specification:
the password hash, the refresh token, and the two ephemeral-token
hash+expiry pairs. -/
def secretKeys : List String :=
  [ "password", "refreshToken"
  , "emailVerificationToken", "emailVerificationExpiry"
  , "forgotPasswordToken", "forgotPasswordExpiry" ]

/-- The users collection. -/
abbrev Store := List UserDoc

/-- `User.findById`. -/
def findById (s : Store) (i : Nat) : Option UserDoc :=
  s.find? (fun u => u.id == i)

/-- `User.findOne({ email })`. -/
def findByEmail (s : Store) (e : String) : Option UserDoc :=
  s.find? (fun u => u.email == e)

/-- `User.findOne({ $or: [{ username }, { email }] })` (registration
duplicate check). -/
def findByUsernameOrEmail (s : Store) (username email : String) : Option UserDoc :=
  s.find? (fun u => u.username == username || u.email == email)

/-- `User.findOne({ emailVerificationToken: hashedToken,
emailVerificationExpiry: { $gt: Date.now() } })`. -/
def findByEmailVerificationToken (s : Store) (h : String) (now : Nat) : Option UserDoc :=
  s.find? (fun u =>
    u.emailVerificationToken == some h &&
    (match u.emailVerificationExpiry with
     | some e => decide (now < e)
     | none => false))

/-- `User.findOne({ forgotPasswordToken: hashedToken,
forgotPasswordExpiry: { $gt: Date.now() } })`. -/
def findByForgotPasswordToken (s : Store) (h : String) (now : Nat) : Option UserDoc :=
  s.find? (fun u =>
    u.forgotPasswordToken == some h &&
    (match u.forgotPasswordExpiry with
     | some e => decide (now < e)
     | none => false))

/-- Persist a (saved) document back into the collection, replacing the
document with the same id. -/
def updateUser (s : Store) (u : UserDoc) : Store :=
  s.map (fun v => if v.id == u.id then u else v)

/-- The lowercase+trim setters the user schema declares on username
and email, applied on writes and on query casts (modelled at character
level so it evaluates definitionally). -/
def mongooseLowerTrim (s : String) : String :=
  String.mk ((((s.toList.dropWhile Char.isWhitespace).reverse.dropWhile
    Char.isWhitespace).reverse).map Char.toLower)

/-- A Mongoose document together with its dirty-path bookkeeping:
`isModified("password")` consults the paths assigned since the document
was last loaded or saved. -/
structure TrackedDoc where
  doc : UserDoc
  modifiedPaths : List String
  deriving DecidableEq, Repr

/-- A freshly loaded document has no modified paths. -/
def TrackedDoc.clean (u : UserDoc) : TrackedDoc :=
  { doc := u, modifiedPaths := [] }

/-- `document.isModified(path)`. -/
def isModifiedPath (d : TrackedDoc) (p : String) : Bool :=
  d.modifiedPaths.contains p

/-- One field assignment on a user document (the assignments the
controllers perform). -/
inductive Mutation where
  | password : String → Mutation
  | refreshToken : Option String → Mutation
  | isEmailVerified : Bool → Mutation
  | emailVerificationToken : Option String → Mutation
  | emailVerificationExpiry : Option Nat → Mutation
  | forgotPasswordToken : Option String → Mutation
  | forgotPasswordExpiry : Option Nat → Mutation
  deriving DecidableEq, Repr

/-- The schema path a mutation assigns. -/
def Mutation.path : Mutation → String
  | Mutation.password _ => "password"
  | Mutation.refreshToken _ => "refreshToken"
  | Mutation.isEmailVerified _ => "isEmailVerified"
  | Mutation.emailVerificationToken _ => "emailVerificationToken"
  | Mutation.emailVerificationExpiry _ => "emailVerificationExpiry"
  | Mutation.forgotPasswordToken _ => "forgotPasswordToken"
  | Mutation.forgotPasswordExpiry _ => "forgotPasswordExpiry"

/-- Perform a field assignment, marking its path modified. -/
def applyMutation (d : TrackedDoc) (m : Mutation) : TrackedDoc :=
  { doc :=
      match m with
      | Mutation.password p => { d.doc with password := p }
      | Mutation.refreshToken t => { d.doc with refreshToken := t }
      | Mutation.isEmailVerified b => { d.doc with isEmailVerified := b }
      | Mutation.emailVerificationToken t => { d.doc with emailVerificationToken := t }
      | Mutation.emailVerificationExpiry e => { d.doc with emailVerificationExpiry := e }
      | Mutation.forgotPasswordToken t => { d.doc with forgotPasswordToken := t }
      | Mutation.forgotPasswordExpiry e => { d.doc with forgotPasswordExpiry := e }
  , modifiedPaths := d.modifiedPaths ++ [m.path] }

/-- Perform a sequence of field assignments. -/
def applyMutations (d : TrackedDoc) (ms : List Mutation) : TrackedDoc :=
  ms.foldl applyMutation d

/-- The `userSchema.pre("save")` hook: when the password path was
modified in this mutation, re-hash it with bcrypt (salt rounds 10);
otherwise leave it untouched. -/
def preSaveHash (bcryptHash : String → String) (d : TrackedDoc) : TrackedDoc :=
  if isModifiedPath d "password" then
    { d with doc := { d.doc with password := bcryptHash d.doc.password } }
  else d

/-- `document.save(...)`: run the pre-save hook, then persist; the
saved document is clean again. -/
def saveDoc (bcryptHash : String → String) (d : TrackedDoc) : TrackedDoc :=
  { preSaveHash bcryptHash d with modifiedPaths := [] }

/-- `userSchema.methods.generateTemporaryToken`, returned as the JS
object the method builds: note the property names it actually carries —
`unHashedToken`, `HashedToken` (capital H) and `tokenExpiry`.
`sha256Hex` is node crypto's SHA-256 hex digest, `randomHex` the
20-byte random hex string from `crypto.randomBytes`. -/
def generateTemporaryToken (sha256Hex : String → String) (randomHex : String)
    (now : Nat) : List (String × JsVal) :=
  [ ("unHashedToken", JsVal.str randomHex)
  , ("HashedToken", JsVal.str (sha256Hex randomHex))
  , ("tokenExpiry", JsVal.num (now + 20 * 60 * 1000)) ]

/-- JS template-literal stringification of an interpolated value. -/
def jsToString : JsVal → String
  | JsVal.undef => "undefined"
  | JsVal.str s => s
  | JsVal.num n => toString n

/-- The raw document `User.create` builds before its save (schema
applies lowercase+trim setters to username and email; optional token
paths start unset). -/
def newUserDoc (newId : Nat) (email username password : String) : UserDoc :=
  { id := newId
  , username := mongooseLowerTrim username
  , email := mongooseLowerTrim email
  , password := password
  , isEmailVerified := false
  , refreshToken := none
  , forgotPasswordToken := none
  , forgotPasswordExpiry := none
  , emailVerificationToken := none
  , emailVerificationExpiry := none }

/-- `User.create({...})`: build the document and save it; the password
path is modified on creation, so the pre-save hook bcrypt-hashes it. -/
def createUser (bcryptHash : String → String) (newId : Nat)
    (email username password : String) : UserDoc :=
  (saveDoc bcryptHash
    { doc := newUserDoc newId email username password
    , modifiedPaths := ["username", "email", "password", "isEmailVerified"] }).doc

/-- What the register flow produces on success. -/
structure RegisterResult where
  store : Store
  httpStatus : Nat
  user : PublicUser
  mailedToken : String
  deriving DecidableEq, Repr

/-- `registerUser` (`controllers/auth.controllers.js`): duplicate check,
`User.create`, `generateTemporaryToken` destructured as
`{ unHashedToken, hashedToken, tokenExpiry }`, token fields saved with
validation disabled, verification mail sent with the plain token in the
URL, then the created user re-fetched sans secret fields. -/
def registerUser (sha256Hex bcryptHash : String → String) (randomHex : String)
    (now newId : Nat) (store : Store)
    (email username password : String) : Except ApiErr RegisterResult :=
  match findByUsernameOrEmail store (mongooseLowerTrim username) (mongooseLowerTrim email) with
  | some _ =>
      Except.error { statusCode := 409
                   , message := "User with email or username already exists" }
  | none =>
      let user0 := createUser bcryptHash newId email username password
      let store1 := store ++ [user0]
      let tokenObj := generateTemporaryToken sha256Hex randomHex now
      let unHashedToken := jsGet tokenObj "unHashedToken"
      let hashedToken := jsGet tokenObj "hashedToken"
      let tokenExpiry := jsGet tokenObj "tokenExpiry"
      let user1 := (saveDoc bcryptHash (applyMutations (TrackedDoc.clean user0)
        [ Mutation.emailVerificationToken (jsValToOptStr hashedToken)
        , Mutation.emailVerificationExpiry (jsValToOptNat tokenExpiry) ])).doc
      let store2 := updateUser store1 user1
      let mailedToken := jsToString unHashedToken
      match findById store2 newId with
      | none =>
          Except.error { statusCode := 500
                       , message := "Something went wrong while registering a user" }
      | some createdUser =>
          Except.ok { store := store2
                    , httpStatus := 201
                    , user := selectSansSecrets createdUser
                    , mailedToken := mailedToken }

/-- `generateAccessAndRefreshTokens`: load the user, sign both tokens
(`signAccess` over the `_id`/email/username claims, `signRefresh` over
the `_id` claim), store the refresh token, save with validation
disabled.  Any failure (including the null-user dereference) is caught
and rethrown as a 500. -/
def generateAccessAndRefreshTokens (signAccess : Nat → String → String → String)
    (signRefresh : Nat → String) (bcryptHash : String → String)
    (store : Store) (userId : Nat) : Except ApiErr (Store × String × String) :=
  match findById store userId with
  | none =>
      Except.error { statusCode := 500
                   , message := "Something went wrong while generating access token" }
  | some user =>
      let accessToken := signAccess user.id user.email user.username
      let refreshToken := signRefresh user.id
      let user1 := (saveDoc bcryptHash (applyMutation (TrackedDoc.clean user)
        (Mutation.refreshToken (some refreshToken)))).doc
      Except.ok (updateUser store user1, accessToken, refreshToken)

/-- What the login flow produces on success: the sanitized user (the
source uses the re-fetched document without a null check, hence the
option), both tokens, which are also the two cookie values set. -/
structure LoginResult where
  store : Store
  user : Option PublicUser
  accessToken : String
  refreshToken : String
  deriving DecidableEq, Repr

/-- `login`: email required (JS falsiness), user lookup by email,
bcrypt password check, token pair issuance persisting the refresh
token, then the user re-fetched sans secret fields; tokens are also set
as httpOnly+secure cookies. -/
def login (bcryptCompare : String → String → Bool) (bcryptHash : String → String)
    (signAccess : Nat → String → String → String) (signRefresh : Nat → String)
    (store : Store) (email : Option String) (password : String) :
    Except ApiErr LoginResult :=
  match jsTruthyStr email with
  | none => Except.error { statusCode := 400, message := "Email is required" }
  | some e =>
      match findByEmail store (mongooseLowerTrim e) with
      | none => Except.error { statusCode := 400, message := "User does not exist" }
      | some user =>
          if bcryptCompare password user.password then
            match generateAccessAndRefreshTokens signAccess signRefresh bcryptHash store user.id with
            | Except.error er => Except.error er
            | Except.ok (store1, accessToken, refreshToken) =>
                Except.ok { store := store1
                          , user := (findById store1 user.id).map selectSansSecrets
                          , accessToken := accessToken
                          , refreshToken := refreshToken }
          else Except.error { statusCode := 400, message := "Invalid credentials" }

/-- What the verify-email flow responds with on success. -/
structure VerifyEmailResult where
  store : Store
  isEmailVerified : Bool
  deriving DecidableEq, Repr

/-- `verifyEmail`: token required (JS falsiness of the path param),
SHA-256 of the supplied plain token looked up together with an
unexpired expiry; on match the two verification fields are cleared,
`isEmailVerified` set, and the document saved with validation
disabled. -/
def verifyEmail (sha256Hex bcryptHash : String → String) (store : Store)
    (verificationToken : String) (now : Nat) : Except ApiErr VerifyEmailResult :=
  if verificationToken == "" then
    Except.error { statusCode := 400, message := "Email verification token is missing" }
  else
    let hashedToken := sha256Hex verificationToken
    match findByEmailVerificationToken store hashedToken now with
    | none => Except.error { statusCode := 400, message := "Token is invalid or expired" }
    | some user =>
        let user1 := (saveDoc bcryptHash (applyMutations (TrackedDoc.clean user)
          [ Mutation.emailVerificationToken none
          , Mutation.emailVerificationExpiry none
          , Mutation.isEmailVerified true ])).doc
        Except.ok { store := updateUser store user1, isEmailVerified := true }

/-- `resetForgotPassword`: SHA-256 of the supplied reset token looked up
together with an unexpired expiry — on miss the controller throws
status 489, "Token is invalid or expired"; on match it clears the
reset pair, assigns the new password (re-hashed by the pre-save hook)
and saves with validation disabled. -/
def resetForgotPassword (sha256Hex bcryptHash : String → String) (store : Store)
    (resetToken newPassword : String) (now : Nat) : Except ApiErr Store :=
  let hashedToken := sha256Hex resetToken
  match findByForgotPasswordToken store hashedToken now with
  | none => Except.error { statusCode := 489, message := "Token is invalid or expired" }
  | some user =>
      let user1 := (saveDoc bcryptHash (applyMutations (TrackedDoc.clean user)
        [ Mutation.forgotPasswordExpiry none
        , Mutation.forgotPasswordToken none
        , Mutation.password newPassword ])).doc
      Except.ok (updateUser store user1)

/-- `refreshAccessToken`: the incoming token from cookie or body
(missing fails 401 "Unauthorized access"); inside a try/catch it is
verified against the refresh secret (`jwtVerifyRefresh` yields the
`_id` claim, or none for any signature/expiry/malformation failure),
the user loaded, the incoming token compared to the stored one, a new
pair issued, and the new refresh token saved a second time on the
stale document (full validation).  Every error raised inside the try —
including the "Refresh token is expired" mismatch — is caught and
rethrown as 401 "Invalid refresh token". -/
def refreshAccessToken (jwtVerifyRefresh : String → Option Nat)
    (signAccess : Nat → String → String → String) (signRefresh : Nat → String)
    (bcryptHash : String → String) (store : Store)
    (cookieRefreshToken bodyRefreshToken : Option String) :
    Except ApiErr (Store × String × String) :=
  match jsTruthyStr (jsOrStr cookieRefreshToken bodyRefreshToken) with
  | none => Except.error { statusCode := 401, message := "Unauthorized access" }
  | some incoming =>
      let inner : Except ApiErr (Store × String × String) :=
        match jwtVerifyRefresh incoming with
        | none => Except.error { statusCode := 401, message := "Invalid refresh token" }
        | some uid =>
            match findById store uid with
            | none => Except.error { statusCode := 401, message := "Invalid refresh token" }
            | some user =>
                if user.refreshToken != some incoming then
                  Except.error { statusCode := 401, message := "Refresh token is expired" }
                else
                  match generateAccessAndRefreshTokens signAccess signRefresh bcryptHash store user.id with
                  | Except.error er => Except.error er
                  | Except.ok (store1, accessToken, newRefreshToken) =>
                      let user2 := (saveDoc bcryptHash (applyMutation (TrackedDoc.clean user)
                        (Mutation.refreshToken (some newRefreshToken)))).doc
                      Except.ok (updateUser store1 user2, accessToken, newRefreshToken)
      match inner with
      | Except.error _ => Except.error { statusCode := 401, message := "Invalid refresh token" }
      | Except.ok r => Except.ok r

/-- The token extraction of `verifyJWT`
(`middlewares/auth.middleware.js`):
`req.cookies?.accessToken || req.header("Authorization")?.replace("Bearer ", "")` —
the cookie when truthy, otherwise the Authorization header with the
first occurrence of the bearer marker removed (the header is used
verbatim when the marker does not occur in it). -/
def extractToken (cookieAccessToken authHeader : Option String) : Option String :=
  match jsTruthyStr cookieAccessToken with
  | some t => some t
  | none => authHeader.map (fun h => jsReplaceFirst h "Bearer " "")

/-- `verifyJWT`: missing credential fails 401 "Unauthorized request";
inside a try/catch the token is verified against the access secret
(`jwtVerifyAccess` yields the `_id` claim, or none on any
signature/expiry/malformation failure) and the subject resolved to a
user sans secret fields; verification failure and a vanished user both
end as 401 "Invalid access token" (the latter is thrown inside the try
and rethrown by the catch with the identical status and message). -/
def verifyJWT (jwtVerifyAccess : String → Option Nat) (store : Store)
    (cookieAccessToken authHeader : Option String) : Except ApiErr PublicUser :=
  match jsTruthyStr (extractToken cookieAccessToken authHeader) with
  | none => Except.error { statusCode := 401, message := "Unauthorized request" }
  | some token =>
      match jwtVerifyAccess token with
      | none => Except.error { statusCode := 401, message := "Invalid access token" }
      | some uid =>
          match findById store uid with
          | none => Except.error { statusCode := 401, message := "Invalid access token" }
          | some user => Except.ok (selectSansSecrets user)

/-- A project-membership tuple (`models/projectmember.models.js`). -/
structure ProjectMemberDoc where
  user : Nat
  project : Nat
  role : String
  deriving DecidableEq, Repr

/-- `ProjectMember.findOne({ project, user })`. -/
def findMember (ms : List ProjectMemberDoc) (projectId userId : Nat) :
    Option ProjectMemberDoc :=
  ms.find? (fun m => m.project == projectId && m.user == userId)

/-- `validateProjectPermission(roles)`: missing projectId fails 400;
missing membership fails 400 "project not found"; a membership whose
role is not among the required roles fails 403; otherwise the request
proceeds with the resolved role attached. -/
def validateProjectPermission (roles : List String)
    (members : List ProjectMemberDoc) (projectId : Option Nat) (userId : Nat) :
    Except ApiErr String :=
  match projectId with
  | none => Except.error { statusCode := 400, message := "project id is missing" }
  | some pid =>
      match findMember members pid userId with
      | none => Except.error { statusCode := 400, message := "project not found" }
      | some m =>
          if roles.contains m.role then Except.ok m.role
          else Except.error { statusCode := 403
                            , message := "You do not have permission to perform this action" }

/-- An error escaping a controller: either a typed `ApiError` or a
plain runtime exception such as the TypeError raised by dereferencing
a null lookup result. -/
inductive JsError where
  | api : ApiErr → JsError
  | typeError : String → JsError
  deriving DecidableEq, Repr

/-- `changeCurrentPassword`: loads the authenticated user by id and —
without any null check — calls `isPasswordCorrect` on the result, so a
vanished user raises a TypeError; a wrong old password fails 400; on
success the new password is assigned (re-hashed by the pre-save hook)
and saved with validation disabled. -/
def changeCurrentPassword (bcryptCompare : String → String → Bool)
    (bcryptHash : String → String) (store : Store) (authUserId : Nat)
    (oldPassword newPassword : String) : Except JsError Store :=
  match findById store authUserId with
  | none =>
      Except.error (JsError.typeError
        "Cannot read properties of null (reading isPasswordCorrect)")
  | some user =>
      if bcryptCompare oldPassword user.password then
        Except.ok (updateUser store
          ((saveDoc bcryptHash (applyMutation (TrackedDoc.clean user)
            (Mutation.password newPassword))).doc))
      else Except.error (JsError.api { statusCode := 400, message := "Invalid old Password" })

/-- What a wrapped route hands to Express: a response, or an error
passed to `next`. -/
inductive RouteOutcome (α : Type) where
  | response : α → RouteOutcome α
  | nextErr : JsError → RouteOutcome α
  deriving DecidableEq, Repr

/-- `asyncHandler` (`utils/async-handler.js`): resolve the handler and
forward any rejection to `next(err)` instead of letting it escape. -/
def asyncHandlerRun {α : Type} (r : Except JsError α) : RouteOutcome α :=
  match r with
  | Except.ok a => RouteOutcome.response a
  | Except.error e => RouteOutcome.nextErr e

/-- Modelled from the spec: the error-conversion boundary.  The Express
app under src/ registers no error-handling middleware, so the layer
that turns an error passed to `next` into the HTTP response is not in
src/; per the specification, "a single boundary layer converts any
uncaught error into the standard error envelope, defaulting to 500 for
unrecognized errors" — a typed ApiError keeps its status code, any
other thrown error (such as a TypeError) becomes an Internal 500. -/
def errorBoundaryStatus : JsError → Nat
  | JsError.api e => e.statusCode
  | JsError.typeError _ => 500

/-- The HTTP status the caller observes for a route outcome, given the
status of the success response. -/
def httpStatusOf {α : Type} (r : RouteOutcome α) (successStatus : Nat) : Nat :=
  match r with
  | RouteOutcome.response _ => successStatus
  | RouteOutcome.nextErr e => errorBoundaryStatus e

/-! ### Helper lemmas about the store -/

lemma findById_id_eq {s : Store} {i : Nat} {u : UserDoc}
    (h : findById s i = some u) : u.id = i := by
  have hp := List.find?_some h
  simpa using hp

lemma findById_mem {s : Store} {i : Nat} {u : UserDoc}
    (h : findById s i = some u) : u ∈ s :=
  List.mem_of_find?_eq_some h

lemma findById_updateUser_self {s : Store} {i : Nat} {u u1 : UserDoc}
    (h : findById s i = some u) (hid : u1.id = u.id) :
    findById (updateUser s u1) i = some u1 := by
  have hui : u.id = i := findById_id_eq h
  unfold findById updateUser
  rw [List.find?_map]
  have hpred : (fun v => (fun w : UserDoc => w.id == i) ((fun w : UserDoc =>
      if w.id == u1.id then u1 else w) v)) = (fun v : UserDoc => v.id == i) := by
    funext v
    by_cases hc : (v.id == u1.id) = true
    · have hv : v.id = u1.id := by simpa using hc
      simp [hc, hv, hid, hui]
    · simp [hc]
  rw [show ((fun w : UserDoc => w.id == i) ∘ (fun w : UserDoc =>
      if w.id == u1.id then u1 else w)) = (fun v : UserDoc => v.id == i) from hpred]
  unfold findById at h
  rw [h]
  simp [hid, hui]

lemma findById_updateUser_of_mem {s : Store} {u1 : UserDoc}
    (h : ∃ v, v ∈ s ∧ v.id = u1.id) : findById (updateUser s u1) u1.id = some u1 := by
  induction s with
  | nil =>
      obtain ⟨v, hv, _⟩ := h
      cases hv
  | cons w s ih =>
      obtain ⟨v, hv, hvid⟩ := h
      unfold findById updateUser
      rw [List.map_cons]
      by_cases hc : (w.id == u1.id) = true
      · rw [if_pos hc, List.find?_cons_of_pos _ (by simp)]
      · rw [if_neg hc, List.find?_cons_of_neg _ (by simpa using hc)]
        have hwv : v ∈ s := by
          rcases List.mem_cons.mp hv with hvw | hvs
          · exfalso
            apply hc
            rw [hvw] at hvid
            simp [hvid]
          · exact hvs
        exact ih ⟨v, hwv, hvid⟩

lemma findById_updateUser_unique {s : Store} {u1 w : UserDoc} {i : Nat}
    (hid : u1.id = i) (h : findById (updateUser s u1) i = some w) : w = u1 := by
  have hmem := List.mem_of_find?_eq_some h
  have hwid : w.id = i := by simpa using List.find?_some h
  simp only [updateUser, List.mem_map] at hmem
  obtain ⟨v, _, hfv⟩ := hmem
  by_cases hc : (v.id == u1.id) = true
  · rw [if_pos hc] at hfv
    exact hfv.symm
  · rw [if_neg hc] at hfv
    exfalso
    apply hc
    rw [hfv, hwid, hid]
    simp

/-! ### Helper lemmas about dirty tracking and the pre-save hook -/

lemma applyMutations_modifiedPaths (d : TrackedDoc) (ms : List Mutation) :
    (applyMutations d ms).modifiedPaths = d.modifiedPaths ++ ms.map Mutation.path := by
  induction ms generalizing d with
  | nil => simp [applyMutations]
  | cons m ms ih =>
      show (applyMutations (applyMutation d m) ms).modifiedPaths = _
      rw [ih]
      simp [applyMutation]

lemma applyMutation_password_of_ne (d : TrackedDoc) (m : Mutation)
    (h : Mutation.path m ≠ "password") :
    (applyMutation d m).doc.password = d.doc.password := by
  cases m <;> first
    | rfl
    | simp [Mutation.path] at h

lemma applyMutations_password_of_not_mem (d : TrackedDoc) (ms : List Mutation)
    (h : "password" ∉ ms.map Mutation.path) :
    (applyMutations d ms).doc.password = d.doc.password := by
  induction ms generalizing d with
  | nil => rfl
  | cons m ms ih =>
      rw [List.map_cons, List.mem_cons] at h
      push_neg at h
      show (applyMutations (applyMutation d m) ms).doc.password = _
      rw [ih _ h.2, applyMutation_password_of_ne _ _ (fun hq => h.1 hq.symm)]

lemma saveDoc_doc_of_not_modified (bc : String → String) (d : TrackedDoc)
    (h : "password" ∉ d.modifiedPaths) :
    (saveDoc bc d).doc = d.doc := by
  have hc : isModifiedPath d "password" = false := by
    simp [isModifiedPath, List.contains]
    simpa [List.elem_iff] using h
  simp [saveDoc, preSaveHash, hc]

lemma saveDoc_doc_of_modified (bc : String → String) (d : TrackedDoc)
    (h : "password" ∈ d.modifiedPaths) :
    (saveDoc bc d).doc = { d.doc with password := bc d.doc.password } := by
  have hc : isModifiedPath d "password" = true := by
    simp [isModifiedPath, List.contains]
    simpa [List.elem_iff] using h
  simp [saveDoc, preSaveHash, hc]

/-! ### Helper lemmas about the JS first-occurrence replace -/

lemma isPrefixOf_append_self (l t : List Char) : l.isPrefixOf (l ++ t) = true := by
  induction l with
  | nil => cases t <;> rfl
  | cons c cs ih => simp [List.isPrefixOf, ih]

lemma replaceFirstL_append (c : Char) (cs rep t : List Char) :
    replaceFirstL (c :: cs) rep ((c :: cs) ++ t) = rep ++ t := by
  show replaceFirstL (c :: cs) rep (c :: (cs ++ t)) = rep ++ t
  rw [replaceFirstL]
  rw [if_pos (show (c :: cs).isPrefixOf (c :: (cs ++ t)) = true from
    isPrefixOf_append_self (c :: cs) t)]
  simp

lemma replaceFirstL_of_not_occurs (pat rep l : List Char)
    (h : occursSub pat l = false) : replaceFirstL pat rep l = l := by
  induction l with
  | nil =>
      rw [occursSub] at h
      rw [replaceFirstL, if_neg (by simp [h])]
  | cons c rest ih =>
      rw [occursSub, Bool.or_eq_false_iff] at h
      rw [replaceFirstL, if_neg (by simp [h.1]), ih h.2]

lemma jsReplaceFirst_strips_bearer (t : String) :
    jsReplaceFirst ("Bearer " ++ t) "Bearer " "" = t := by
  unfold jsReplaceFirst
  have h1 : ("Bearer " ++ t).toList = "Bearer ".toList ++ t.toList := by
    cases t
    rfl
  rw [h1]
  have h2 : ("Bearer ".toList : List Char) = 'B' :: "earer ".toList := rfl
  rw [h2, replaceFirstL_append]
  show String.mk (("" : String).toList ++ t.toList) = t
  cases t
  rfl

lemma jsReplaceFirst_of_not_occurs (t : String)
    (h : occursSub "Bearer ".toList t.toList = false) :
    jsReplaceFirst t "Bearer " "" = t := by
  unfold jsReplaceFirst
  rw [replaceFirstL_of_not_occurs _ _ _ h]
  cases t
  rfl

lemma jsTruthyStr_some_ne (t : String) (h : t ≠ "") : jsTruthyStr (some t) = some t := by
  simp [jsTruthyStr, h]

/-! ### Claim theorems -/

/-- C4 (amended): for every reset request whose supplied plain token
does not hash to any user's stored forgotPasswordToken with an
unexpired forgotPasswordExpiry, resetForgotPassword fails with status
489 (a client-error status outside the spec's taxonomy, not
BadRequest 400), and no user state is changed (the throw precedes
every save of the flow, so the error carries no store mutation). -/
theorem resetForgotPassword_invalidToken_fails489
    (sha256Hex bcryptHash : String → String) (store : Store)
    (resetToken newPassword : String) (now : Nat)
    (h : findByForgotPasswordToken store (sha256Hex resetToken) now = none) :
    resetForgotPassword sha256Hex bcryptHash store resetToken newPassword now =
      Except.error { statusCode := 489, message := "Token is invalid or expired" } := by
  simp [resetForgotPassword, h]

/-- C4 witness: the amended theorem applied to a concrete store in
which no user matches the supplied reset token. -/
theorem resetForgotPassword_invalidToken_fails489_witness :
    resetForgotPassword (fun s => String.append s "#sha") (fun s => s) [] "tok" "np" 0 =
      Except.error { statusCode := 489, message := "Token is invalid or expired" } :=
  resetForgotPassword_invalidToken_fails489 (fun s => String.append s "#sha")
    (fun s => s) [] "tok" "np" 0 rfl

/-- C4 counterexample: the claim as stated is false — at a concrete
input with no matching user, resetForgotPassword fails with status
code 489, not with the BadRequest status 400 the claim asserts. -/
theorem resetForgotPassword_not400_counterexample :
    (resetForgotPassword (fun s => String.append s "#s") (fun s => s) [] "token" "pw" 5 =
      Except.error { statusCode := 489, message := "Token is invalid or expired" })
    ∧ ¬ (∃ e : ApiErr,
          resetForgotPassword (fun s => String.append s "#s") (fun s => s) [] "token" "pw" 5 =
            Except.error e ∧ e.statusCode = 400) := by
  constructor
  · rfl
  · rintro ⟨e, he, h400⟩
    have h0 : resetForgotPassword (fun s => String.append s "#s") (fun s => s) [] "token" "pw" 5 =
        Except.error { statusCode := 489, message := "Token is invalid or expired" } := rfl
    rw [h0] at he
    injection he with he'
    rw [← he'] at h400
    exact absurd h400 (by decide)

/-- C9 (confirmed): when the authenticated user's record no longer
exists, changeCurrentPassword dereferences the null lookup result (a
TypeError, not a NotFound ApiError); the async wrapper forwards it and
the boundary converts it to an Internal 500.  No state is changed: the
exception is raised before any save of the flow. -/
theorem changeCurrentPassword_vanishedUser_internal500
    (bcryptCompare : String → String → Bool) (bcryptHash : String → String)
    (store : Store) (authUserId : Nat) (oldPassword newPassword : String)
    (h : findById store authUserId = none) :
    changeCurrentPassword bcryptCompare bcryptHash store authUserId oldPassword newPassword =
      Except.error (JsError.typeError
        "Cannot read properties of null (reading isPasswordCorrect)")
    ∧ httpStatusOf (asyncHandlerRun
        (changeCurrentPassword bcryptCompare bcryptHash store authUserId
          oldPassword newPassword)) 200 = 500 := by
  constructor
  · simp [changeCurrentPassword, h]
  · simp [changeCurrentPassword, h, asyncHandlerRun, httpStatusOf, errorBoundaryStatus]

/-- C9 witness: the theorem applied to the empty store, where no user
record resolves. -/
theorem changeCurrentPassword_vanishedUser_internal500_witness :
    changeCurrentPassword (fun _ _ => true) (fun s => s) [] 1 "old" "new" =
      Except.error (JsError.typeError
        "Cannot read properties of null (reading isPasswordCorrect)")
    ∧ httpStatusOf (asyncHandlerRun
        (changeCurrentPassword (fun _ _ => true) (fun s => s) [] 1 "old" "new")) 200 = 500 :=
  changeCurrentPassword_vanishedUser_internal500 (fun _ _ => true) (fun s => s) [] 1
    "old" "new" rfl

/-- C8 (confirmed): validateProjectPermission fails 400 when projectId
is missing or no membership tuple exists, fails 403 when the member's
role is not among the required roles, succeeds when it is; in
particular requiring admin fails 403 for a member and succeeds for an
admin. -/
theorem validateProjectPermission_spec (roles : List String)
    (members : List ProjectMemberDoc) (userId : Nat) :
    (validateProjectPermission roles members none userId =
      Except.error { statusCode := 400, message := "project id is missing" })
    ∧ (∀ pid, findMember members pid userId = none →
        validateProjectPermission roles members (some pid) userId =
          Except.error { statusCode := 400, message := "project not found" })
    ∧ (∀ pid m, findMember members pid userId = some m →
        roles.contains m.role = false →
        validateProjectPermission roles members (some pid) userId =
          Except.error { statusCode := 403
                       , message := "You do not have permission to perform this action" })
    ∧ (∀ pid m, findMember members pid userId = some m →
        roles.contains m.role = true →
        validateProjectPermission roles members (some pid) userId = Except.ok m.role)
    ∧ (∀ pid m, findMember members pid userId = some m → m.role = "member" →
        validateProjectPermission ["admin"] members (some pid) userId =
          Except.error { statusCode := 403
                       , message := "You do not have permission to perform this action" })
    ∧ (∀ pid m, findMember members pid userId = some m → m.role = "admin" →
        validateProjectPermission ["admin"] members (some pid) userId = Except.ok "admin") := by
  refine ⟨rfl, ?_, ?_, ?_, ?_, ?_⟩
  · intro pid h
    simp [validateProjectPermission, h]
  · intro pid m h hrole
    have hmem : m.role ∉ roles := by simpa [List.contains] using hrole
    simp [validateProjectPermission, h, hmem]
  · intro pid m h hrole
    have hmem : m.role ∈ roles := by simpa [List.contains] using hrole
    simp [validateProjectPermission, h, hmem]
  · intro pid m h hrole
    simp [validateProjectPermission, h, hrole]
  · intro pid m h hrole
    simp [validateProjectPermission, h, hrole]

/-- C8 witness: a concrete membership table where user 7 is a member
and user 8 an admin of project 5; requiring admin rejects user 7 with
403 and accepts user 8. -/
theorem validateProjectPermission_spec_witness :
    validateProjectPermission ["admin"]
      [{ user := 7, project := 5, role := "member" }
      , { user := 8, project := 5, role := "admin" }] (some 5) 7 =
      Except.error { statusCode := 403
                   , message := "You do not have permission to perform this action" }
    ∧ validateProjectPermission ["admin"]
      [{ user := 7, project := 5, role := "member" }
      , { user := 8, project := 5, role := "admin" }] (some 5) 8 = Except.ok "admin" := by
  constructor
  · exact (validateProjectPermission_spec ["admin"]
      [{ user := 7, project := 5, role := "member" }
      , { user := 8, project := 5, role := "admin" }] 7).2.2.2.2.1 5
      { user := 7, project := 5, role := "member" } rfl rfl
  · exact (validateProjectPermission_spec ["admin"]
      [{ user := 7, project := 5, role := "member" }
      , { user := 8, project := 5, role := "admin" }] 8).2.2.2.2.2 5
      { user := 8, project := 5, role := "admin" } rfl rfl

/-- C7 (confirmed): saving a user document recomputes the stored
password as a bcrypt hash exactly when the password path was assigned
in that mutation; a save whose mutations touch only other fields
leaves the stored password unchanged, so no double-hashing occurs. -/
theorem password_hashed_iff_modified (bcryptHash : String → String) (u : UserDoc)
    (ms : List Mutation) :
    ("password" ∈ ms.map Mutation.path →
      (saveDoc bcryptHash (applyMutations (TrackedDoc.clean u) ms)).doc.password =
        bcryptHash (applyMutations (TrackedDoc.clean u) ms).doc.password)
    ∧ ("password" ∉ ms.map Mutation.path →
      (saveDoc bcryptHash (applyMutations (TrackedDoc.clean u) ms)).doc.password =
        u.password) := by
  constructor
  · intro h
    have hm : "password" ∈ (applyMutations (TrackedDoc.clean u) ms).modifiedPaths := by
      rw [applyMutations_modifiedPaths]
      simpa [TrackedDoc.clean] using h
    rw [saveDoc_doc_of_modified bcryptHash _ hm]
  · intro h
    have hm : "password" ∉ (applyMutations (TrackedDoc.clean u) ms).modifiedPaths := by
      rw [applyMutations_modifiedPaths]
      simpa [TrackedDoc.clean] using h
    rw [saveDoc_doc_of_not_modified bcryptHash _ hm,
        applyMutations_password_of_not_mem _ _ h]
    rfl

/-- C7 witness: on a concrete document, a save after assigning the
password stores its bcrypt hash, while a save after assigning only the
refresh token leaves the stored password untouched. -/
theorem password_hashed_iff_modified_witness :
    (saveDoc (fun s => String.append "bc:" s)
      (applyMutations (TrackedDoc.clean
        { id := 1, username := "al", email := "a@x", password := "pw0"
        , isEmailVerified := false, refreshToken := none
        , forgotPasswordToken := none, forgotPasswordExpiry := none
        , emailVerificationToken := none, emailVerificationExpiry := none })
        [Mutation.password "new"])).doc.password = "bc:new"
    ∧ (saveDoc (fun s => String.append "bc:" s)
      (applyMutations (TrackedDoc.clean
        { id := 1, username := "al", email := "a@x", password := "pw0"
        , isEmailVerified := false, refreshToken := none
        , forgotPasswordToken := none, forgotPasswordExpiry := none
        , emailVerificationToken := none, emailVerificationExpiry := none })
        [Mutation.refreshToken (some "r")])).doc.password = "pw0" := by
  constructor
  · have h1 := (password_hashed_iff_modified (fun s => String.append "bc:" s)
      { id := 1, username := "al", email := "a@x", password := "pw0"
      , isEmailVerified := false, refreshToken := none
      , forgotPasswordToken := none, forgotPasswordExpiry := none
      , emailVerificationToken := none, emailVerificationExpiry := none }
      [Mutation.password "new"]).1 (by decide)
    exact h1.trans rfl
  · exact (password_hashed_iff_modified (fun s => String.append "bc:" s)
      { id := 1, username := "al", email := "a@x", password := "pw0"
      , isEmailVerified := false, refreshToken := none
      , forgotPasswordToken := none, forgotPasswordExpiry := none
      , emailVerificationToken := none, emailVerificationExpiry := none }
      [Mutation.refreshToken (some "r")]).2 (by decide)

/-- C6 (amended): verifyJWT reads the credential from the accessToken
cookie when present and non-empty, otherwise from the Authorization
header; every failure mode yields status 401; the verification
failures and the vanished-user case collapse to the identical error
401 "Invalid access token"; a missing credential yields 401 with the
distinct message "Unauthorized request", so the missing-credential
case is distinguishable from the others by message (only the statuses
coincide). -/
theorem verifyJWT_unauthorized_collapse (jwtVerifyAccess : String → Option Nat)
    (store : Store) (cookie header : Option String) :
    (∀ c, cookie = some c → c ≠ "" → extractToken cookie header = some c)
    ∧ (jsTruthyStr (extractToken cookie header) = none →
        verifyJWT jwtVerifyAccess store cookie header =
          Except.error { statusCode := 401, message := "Unauthorized request" })
    ∧ (∀ token, jsTruthyStr (extractToken cookie header) = some token →
        jwtVerifyAccess token = none →
        verifyJWT jwtVerifyAccess store cookie header =
          Except.error { statusCode := 401, message := "Invalid access token" })
    ∧ (∀ token uid, jsTruthyStr (extractToken cookie header) = some token →
        jwtVerifyAccess token = some uid → findById store uid = none →
        verifyJWT jwtVerifyAccess store cookie header =
          Except.error { statusCode := 401, message := "Invalid access token" })
    ∧ (∀ e, verifyJWT jwtVerifyAccess store cookie header = Except.error e →
        e.statusCode = 401) := by
  refine ⟨?_, ?_, ?_, ?_, ?_⟩
  · intro c hc hne
    simp [extractToken, hc, jsTruthyStr_some_ne c hne]
  · intro h
    simp [verifyJWT, h]
  · intro token h hjv
    simp [verifyJWT, h, hjv]
  · intro token uid h hjv hu
    simp [verifyJWT, h, hjv, hu]
  · intro e he
    unfold verifyJWT at he
    split at he
    · injection he with he'
      rw [← he']
    · split at he
      · injection he with he'
        rw [← he']
      · split at he
        · injection he with he'
          rw [← he']
        · exact absurd he (by simp)

/-- C6 witness: the amended theorem applied concretely — a non-empty
cookie wins over a header, a missing credential yields the 401
"Unauthorized request" error, and a token failing verification yields
the 401 "Invalid access token" error. -/
theorem verifyJWT_unauthorized_collapse_witness :
    extractToken (some "cookieTok") (some "Bearer headerTok") = some "cookieTok"
    ∧ verifyJWT (fun _ => none) [] none none =
        Except.error { statusCode := 401, message := "Unauthorized request" }
    ∧ verifyJWT (fun _ => none) [] none (some "bad") =
        Except.error { statusCode := 401, message := "Invalid access token" } := by
  refine ⟨?_, ?_, ?_⟩
  · exact (verifyJWT_unauthorized_collapse (fun _ => none) []
      (some "cookieTok") (some "Bearer headerTok")).1 "cookieTok" rfl (by decide)
  · exact (verifyJWT_unauthorized_collapse (fun _ => none) [] none none).2.1 rfl
  · exact (verifyJWT_unauthorized_collapse (fun _ => none) [] none
      (some "bad")).2.2.1 "bad" rfl rfl

/-- C6 counterexample: the claim as stated is false — at concrete
inputs, the missing-credential failure and a verification failure
produce different messages ("Unauthorized request" versus "Invalid
access token"), so the five failure modes do not share a single
indistinguishable outcome. -/
theorem verifyJWT_messages_differ_counterexample :
    (verifyJWT (fun _ => none) [] none none =
      Except.error { statusCode := 401, message := "Unauthorized request" })
    ∧ (verifyJWT (fun _ => none) [] none (some "garbage") =
      Except.error { statusCode := 401, message := "Invalid access token" })
    ∧ ("Unauthorized request" : String) ≠ "Invalid access token" :=
  ⟨rfl, rfl, by decide⟩

/-- C10 (confirmed): with no accessToken cookie, verifyJWT accepts an
Authorization header that is a bare valid token — the replace call
only strips a "Bearer " occurrence when one is present — so
authentication resolves the same user for both the prefixed and the
bare header form. -/
theorem verifyJWT_accepts_bare_header (jwtVerifyAccess : String → Option Nat)
    (store : Store) (t : String) (uid : Nat) (u : UserDoc)
    (hne : t ≠ "")
    (hnb : occursSub "Bearer ".toList t.toList = false)
    (hjv : jwtVerifyAccess t = some uid)
    (hu : findById store uid = some u) :
    verifyJWT jwtVerifyAccess store none (some t) = Except.ok (selectSansSecrets u)
    ∧ verifyJWT jwtVerifyAccess store none (some ("Bearer " ++ t)) =
        Except.ok (selectSansSecrets u) := by
  have hbare : extractToken none (some t) = some t := by
    simp [extractToken, jsTruthyStr, jsReplaceFirst_of_not_occurs t hnb]
  have hpref : extractToken none (some ("Bearer " ++ t)) = some t := by
    simp [extractToken, jsTruthyStr, jsReplaceFirst_strips_bearer t]
  constructor
  · simp [verifyJWT, hbare, jsTruthyStr_some_ne t hne, hjv, hu]
  · simp [verifyJWT, hpref, jsTruthyStr_some_ne t hne, hjv, hu]

/-- C10 witness: the theorem applied to a concrete store and token,
showing both header forms authenticate the same user. -/
theorem verifyJWT_accepts_bare_header_witness :
    verifyJWT (fun s => if s == "tok123" then some 1 else none)
      [{ id := 1, username := "al", email := "a@x", password := "h"
       , isEmailVerified := true, refreshToken := none
       , forgotPasswordToken := none, forgotPasswordExpiry := none
       , emailVerificationToken := none, emailVerificationExpiry := none }]
      none (some "tok123") =
      Except.ok (selectSansSecrets
        { id := 1, username := "al", email := "a@x", password := "h"
        , isEmailVerified := true, refreshToken := none
        , forgotPasswordToken := none, forgotPasswordExpiry := none
        , emailVerificationToken := none, emailVerificationExpiry := none })
    ∧ verifyJWT (fun s => if s == "tok123" then some 1 else none)
      [{ id := 1, username := "al", email := "a@x", password := "h"
       , isEmailVerified := true, refreshToken := none
       , forgotPasswordToken := none, forgotPasswordExpiry := none
       , emailVerificationToken := none, emailVerificationExpiry := none }]
      none (some ("Bearer " ++ "tok123")) =
      Except.ok (selectSansSecrets
        { id := 1, username := "al", email := "a@x", password := "h"
        , isEmailVerified := true, refreshToken := none
        , forgotPasswordToken := none, forgotPasswordExpiry := none
        , emailVerificationToken := none, emailVerificationExpiry := none }) :=
  verifyJWT_accepts_bare_header (fun s => if s == "tok123" then some 1 else none)
    [{ id := 1, username := "al", email := "a@x", password := "h"
     , isEmailVerified := true, refreshToken := none
     , forgotPasswordToken := none, forgotPasswordExpiry := none
     , emailVerificationToken := none, emailVerificationExpiry := none }]
    "tok123" 1
    { id := 1, username := "al", email := "a@x", password := "h"
    , isEmailVerified := true, refreshToken := none
    , forgotPasswordToken := none, forgotPasswordExpiry := none
    , emailVerificationToken := none, emailVerificationExpiry := none }
    (by decide) (by decide) rfl rfl

/-- The user document the register flow actually persists (proved in
`registerUser_ok_shape`): the created document whose
emailVerificationToken ends up UNSET — the controller destructures the
absent lowercase `hashedToken` property — while the expiry is set to
generation time plus twenty minutes. -/
def registeredDoc (bcryptHash : String → String) (newId : Nat)
    (email username password : String) (now : Nat) : UserDoc :=
  { createUser bcryptHash newId email username password with
      emailVerificationToken := none
    , emailVerificationExpiry := some (now + 20 * 60 * 1000) }

lemma registerUser_ok_shape (sha256Hex bcryptHash : String → String)
    (randomHex : String) (now newId : Nat) (store : Store)
    (email username password : String)
    (hdup : findByUsernameOrEmail store (mongooseLowerTrim username) (mongooseLowerTrim email) = none) :
    registerUser sha256Hex bcryptHash randomHex now newId store email username password =
      Except.ok
        { store := updateUser (store ++ [createUser bcryptHash newId email username password])
                     (registeredDoc bcryptHash newId email username password now)
        , httpStatus := 201
        , user := selectSansSecrets (registeredDoc bcryptHash newId email username password now)
        , mailedToken := randomHex } := by
  have hfind : findById
      (updateUser (store ++ [createUser bcryptHash newId email username password])
        (registeredDoc bcryptHash newId email username password now)) newId
      = some (registeredDoc bcryptHash newId email username password now) :=
    findById_updateUser_of_mem
      ⟨createUser bcryptHash newId email username password, by simp, rfl⟩
  simp only [registerUser, hdup]
  split
  · rename_i heq
    exact absurd (hfind.symm.trans heq) (by simp)
  · rename_i cu heq
    have h2 := hfind.symm.trans heq
    injection h2 with h3
    rw [← h3]
    rfl

/-! ### Lemmas about the sanitized user JSON -/

lemma publicUserJson_no_selected_keys (p : PublicUser) :
    containsKey (publicUserJson p) "password" = false
    ∧ containsKey (publicUserJson p) "refreshToken" = false
    ∧ containsKey (publicUserJson p) "emailVerificationToken" = false
    ∧ containsKey (publicUserJson p) "emailVerificationExpiry" = false := by
  cases hf : p.forgotPasswordToken <;> cases he : p.forgotPasswordExpiry <;>
    simp [publicUserJson, containsKey, hf, he]

lemma publicUserJson_clean_no_secret_keys (p : PublicUser)
    (h1 : p.forgotPasswordToken = none) (h2 : p.forgotPasswordExpiry = none) :
    ∀ k ∈ secretKeys, containsKey (publicUserJson p) k = false := by
  intro k hk
  simp only [secretKeys, List.mem_cons, List.not_mem_nil, or_false] at hk
  rcases hk with h | h | h | h | h | h <;> subst h <;>
    simp [publicUserJson, containsKey, h1, h2]

/-- C2 (amended): the user objects returned by Register and Login are
built by a select that removes the password hash, the refresh token
and the email-verification pair — those four fields never appear; the
forgot-password pair is NOT removed by the select, but at registration
it is unset, so Register's returned user contains none of the six
secret fields while Login's returned user retains whatever
forgot-password pair the account currently holds. -/
theorem sanitizedUserResponses (sha256Hex bcryptHash : String → String)
    (randomHex : String) (now newId : Nat) (store : Store)
    (email username password : String)
    (bcryptCompare : String → String → Bool)
    (signAccess : Nat → String → String → String) (signRefresh : Nat → String)
    (storeL : Store) (emailL : Option String) (passwordL : String) :
    (∀ r, registerUser sha256Hex bcryptHash randomHex now newId store
        email username password = Except.ok r →
      ∀ k ∈ secretKeys, containsKey (publicUserJson r.user) k = false)
    ∧ (∀ res p, login bcryptCompare bcryptHash signAccess signRefresh storeL
        emailL passwordL = Except.ok res → res.user = some p →
      containsKey (publicUserJson p) "password" = false
      ∧ containsKey (publicUserJson p) "refreshToken" = false
      ∧ containsKey (publicUserJson p) "emailVerificationToken" = false
      ∧ containsKey (publicUserJson p) "emailVerificationExpiry" = false) := by
  constructor
  · intro r hr k hk
    cases hdup : findByUsernameOrEmail store (mongooseLowerTrim username) (mongooseLowerTrim email) with
    | some u =>
        rw [registerUser, hdup] at hr
        exact absurd hr (by simp)
    | none =>
        rw [registerUser_ok_shape sha256Hex bcryptHash randomHex now newId store
          email username password hdup] at hr
        injection hr with hr'
        rw [← hr']
        exact publicUserJson_clean_no_secret_keys _ rfl rfl k hk
  · intro res p _ _
    exact publicUserJson_no_selected_keys p

/-- C2 witness: the theorem applied at concrete inputs — a concrete
successful registration whose response contains no secret key, and a
concrete successful login whose response contains none of the four
selected-out keys. -/
theorem sanitizedUserResponses_witness :
    (∀ r, registerUser (fun s => String.append s "#sha") (fun s => String.append "bc:" s)
        "rand" 10 1 [] "a@x.com" "alice" "pw" = Except.ok r →
      ∀ k ∈ secretKeys, containsKey (publicUserJson r.user) k = false)
    ∧ (∀ res p, login (fun p h => h == String.append "bc:" p)
        (fun s => String.append "bc:" s) (fun _ _ _ => "acc") (fun _ => "ref")
        [{ id := 1, username := "alice", email := "a@x.com", password := "bc:pw"
         , isEmailVerified := true, refreshToken := none
         , forgotPasswordToken := some "fph", forgotPasswordExpiry := some 99
         , emailVerificationToken := none, emailVerificationExpiry := none }]
        (some "a@x.com") "pw" = Except.ok res → res.user = some p →
      containsKey (publicUserJson p) "password" = false
      ∧ containsKey (publicUserJson p) "refreshToken" = false
      ∧ containsKey (publicUserJson p) "emailVerificationToken" = false
      ∧ containsKey (publicUserJson p) "emailVerificationExpiry" = false) :=
  sanitizedUserResponses (fun s => String.append s "#sha")
    (fun s => String.append "bc:" s) "rand" 10 1 [] "a@x.com" "alice" "pw"
    (fun p h => h == String.append "bc:" p) (fun _ _ _ => "acc") (fun _ => "ref")
    [{ id := 1, username := "alice", email := "a@x.com", password := "bc:pw"
     , isEmailVerified := true, refreshToken := none
     , forgotPasswordToken := some "fph", forgotPasswordExpiry := some 99
     , emailVerificationToken := none, emailVerificationExpiry := none }]
    (some "a@x.com") "pw"

/-- C2 counterexample: the claim as stated is false — a concrete user
who requested a password reset and then logs in receives a response
user object that still contains the forgotPasswordToken secret field
(its stored reset-token hash). -/
theorem login_leaks_forgotPasswordToken_counterexample :
    login (fun p h => h == String.append "bc:" p) (fun s => String.append "bc:" s)
      (fun _ _ _ => "acc") (fun _ => "ref")
      [{ id := 1, username := "alice", email := "a@x.com", password := "bc:pw"
       , isEmailVerified := true, refreshToken := none
       , forgotPasswordToken := some "fph", forgotPasswordExpiry := some 99
       , emailVerificationToken := none, emailVerificationExpiry := none }]
      (some "a@x.com") "pw" =
      Except.ok
        { store := [{ id := 1, username := "alice", email := "a@x.com", password := "bc:pw"
                    , isEmailVerified := true, refreshToken := some "ref"
                    , forgotPasswordToken := some "fph", forgotPasswordExpiry := some 99
                    , emailVerificationToken := none, emailVerificationExpiry := none }]
        , user := some { id := 1, username := "alice", email := "a@x.com"
                       , isEmailVerified := true, forgotPasswordToken := some "fph"
                       , forgotPasswordExpiry := some 99 }
        , accessToken := "acc"
        , refreshToken := "ref" }
    ∧ containsKey (publicUserJson
        { id := 1, username := "alice", email := "a@x.com"
        , isEmailVerified := true, forgotPasswordToken := some "fph"
        , forgotPasswordExpiry := some 99 }) "forgotPasswordToken" = true :=
  ⟨rfl, rfl⟩

/-- C1 (code bug): every successful registration mails the plain token
and persists the twenty-minute expiry, but the persisted
emailVerificationToken is UNSET rather than the SHA-256 digest of the
mailed token — `generateTemporaryToken` returns the digest under the
property name `HashedToken` while the controller destructures the
absent lowercase `hashedToken`, assigning `undefined` to the field. -/
theorem registerUser_persists_no_token_hash (sha256Hex bcryptHash : String → String)
    (randomHex : String) (now newId : Nat) (store : Store)
    (email username password : String)
    (hdup : findByUsernameOrEmail store (mongooseLowerTrim username)
      (mongooseLowerTrim email) = none) :
    ∃ r : RegisterResult,
      registerUser sha256Hex bcryptHash randomHex now newId store
        email username password = Except.ok r
      ∧ r.mailedToken = randomHex
      ∧ (∃ u' ∈ r.store, u'.id = newId
          ∧ u'.emailVerificationToken = none
          ∧ u'.emailVerificationExpiry = some (now + 20 * 60 * 1000))
      ∧ (∀ u' ∈ r.store, u'.id = newId →
          u'.emailVerificationToken ≠ some (sha256Hex randomHex)) := by
  refine ⟨{ store := updateUser (store ++ [createUser bcryptHash newId email username password])
              (registeredDoc bcryptHash newId email username password now)
          , httpStatus := 201
          , user := selectSansSecrets (registeredDoc bcryptHash newId email username password now)
          , mailedToken := randomHex }
    , registerUser_ok_shape sha256Hex bcryptHash randomHex now newId store
        email username password hdup
    , rfl, ?_, ?_⟩
  · refine ⟨registeredDoc bcryptHash newId email username password now, ?_, rfl, rfl, rfl⟩
    refine List.mem_map.mpr
      ⟨createUser bcryptHash newId email username password, by simp, ?_⟩
    have hc : ((createUser bcryptHash newId email username password).id ==
        (registeredDoc bcryptHash newId email username password now).id) = true :=
      beq_self_eq_true newId
    rw [if_pos hc]
  · intro u' hu' hid
    simp only [updateUser, List.mem_map] at hu'
    obtain ⟨v, _, hfv⟩ := hu'
    by_cases hc : (v.id == (registeredDoc bcryptHash newId email username password now).id) = true
    · rw [if_pos hc] at hfv
      rw [← hfv]
      simp [registeredDoc]
    · rw [if_neg hc] at hfv
      exfalso
      apply hc
      rw [hfv, hid]
      exact beq_self_eq_true newId

/-- C1 witness: the theorem applied to a concrete registration into
the empty store. -/
theorem registerUser_persists_no_token_hash_witness :
    ∃ r : RegisterResult,
      registerUser (fun s => String.append s "#sha") (fun s => String.append "bc:" s)
        "rand" 10 1 [] "a@x.com" "alice" "pw" = Except.ok r
      ∧ r.mailedToken = "rand"
      ∧ (∃ u' ∈ r.store, u'.id = 1
          ∧ u'.emailVerificationToken = none
          ∧ u'.emailVerificationExpiry = some (10 + 20 * 60 * 1000))
      ∧ (∀ u' ∈ r.store, u'.id = 1 →
          u'.emailVerificationToken ≠
            some ((fun s => String.append s "#sha") "rand")) :=
  registerUser_persists_no_token_hash (fun s => String.append s "#sha")
    (fun s => String.append "bc:" s) "rand" 10 1 [] "a@x.com" "alice" "pw" rfl

/-- C5 (confirmed): a user holding a valid unexpired verification
token (unique to that user) is verified on the first verifyEmail call
with the plain token — isEmailVerified becomes true and both
verification fields are cleared — and a second call with the same
plain token fails 400 at every later time: the token is consumed
exactly once. -/
theorem verifyEmail_consumes_token (sha256Hex bcryptHash : String → String)
    (store : Store) (plain : String) (now : Nat) (u : UserDoc)
    (hne : plain ≠ "")
    (hfind : findByEmailVerificationToken store (sha256Hex plain) now = some u)
    (huniq : ∀ v ∈ store, v.emailVerificationToken = some (sha256Hex plain) → v.id = u.id) :
    ∃ s2, verifyEmail sha256Hex bcryptHash store plain now =
        Except.ok { store := s2, isEmailVerified := true }
      ∧ (∃ u' ∈ s2, u'.id = u.id ∧ u'.isEmailVerified = true
          ∧ u'.emailVerificationToken = none ∧ u'.emailVerificationExpiry = none)
      ∧ (∀ now2, verifyEmail sha256Hex bcryptHash s2 plain now2 =
          Except.error { statusCode := 400, message := "Token is invalid or expired" }) := by
  have hbeq : (plain == "") = false := by simp [hne]
  refine ⟨updateUser store
      { u with emailVerificationToken := none
             , emailVerificationExpiry := none
             , isEmailVerified := true }, ?_, ?_, ?_⟩
  · simp only [verifyEmail, hbeq, Bool.false_eq_true, if_false, hfind]
    rfl
  · refine ⟨{ u with emailVerificationToken := none
                   , emailVerificationExpiry := none
                   , isEmailVerified := true }, ?_, rfl, rfl, rfl, rfl⟩
    refine List.mem_map.mpr ⟨u, List.mem_of_find?_eq_some hfind, ?_⟩
    rw [if_pos (beq_self_eq_true u.id)]
  · intro now2
    have hnone : findByEmailVerificationToken
        (updateUser store
          { u with emailVerificationToken := none
                 , emailVerificationExpiry := none
                 , isEmailVerified := true }) (sha256Hex plain) now2 = none := by
      rw [findByEmailVerificationToken, List.find?_eq_none]
      intro x hx
      simp only [updateUser, List.mem_map] at hx
      obtain ⟨v, hv, hfv⟩ := hx
      by_cases hc : (v.id == u.id) = true
      · rw [if_pos hc] at hfv
        rw [← hfv]
        simp
      · rw [if_neg hc] at hfv
        rw [← hfv]
        intro hpred
        rw [Bool.and_eq_true] at hpred
        have htok : v.emailVerificationToken = some (sha256Hex plain) := by
          simpa using hpred.1
        exact hc (by simp [huniq v hv htok])
    simp only [verifyEmail, hbeq, Bool.false_eq_true, if_false, hnone]

/-- C5 witness: the theorem applied to a concrete store with one user
holding a valid unexpired verification token. -/
theorem verifyEmail_consumes_token_witness :
    ∃ s2, verifyEmail (fun s => String.append "sha:" s) (fun s => s)
        [{ id := 1, username := "al", email := "a@x", password := "h"
         , isEmailVerified := false, refreshToken := none
         , forgotPasswordToken := none, forgotPasswordExpiry := none
         , emailVerificationToken := some (String.append "sha:" "plain")
         , emailVerificationExpiry := some 100 }] "plain" 50 =
        Except.ok { store := s2, isEmailVerified := true }
      ∧ (∃ u' ∈ s2, u'.id = 1 ∧ u'.isEmailVerified = true
          ∧ u'.emailVerificationToken = none ∧ u'.emailVerificationExpiry = none)
      ∧ (∀ now2, verifyEmail (fun s => String.append "sha:" s) (fun s => s) s2 "plain" now2 =
          Except.error { statusCode := 400, message := "Token is invalid or expired" }) :=
  verifyEmail_consumes_token (fun s => String.append "sha:" s) (fun s => s)
    [{ id := 1, username := "al", email := "a@x", password := "h"
     , isEmailVerified := false, refreshToken := none
     , forgotPasswordToken := none, forgotPasswordExpiry := none
     , emailVerificationToken := some (String.append "sha:" "plain")
     , emailVerificationExpiry := some 100 }] "plain" 50
    { id := 1, username := "al", email := "a@x", password := "h"
    , isEmailVerified := false, refreshToken := none
    , forgotPasswordToken := none, forgotPasswordExpiry := none
    , emailVerificationToken := some (String.append "sha:" "plain")
    , emailVerificationExpiry := some 100 }
    (by decide) rfl (by decide)

/-- C3 (confirmed): after refreshAccessToken succeeds once with
refresh token T — issuing and persisting a new refresh token T' =
`signRefresh uid` distinct from T — a second call presenting the old
token T fails 401 even though T still verifies cryptographically
(`jwtVerifyRefresh` still accepts it): the stored token no longer
matches the incoming one. -/
theorem refreshAccessToken_rotation_invalidates_old
    (jv1 jv2 : String → Option Nat)
    (sa1 sa2 : Nat → String → String → String) (sr1 sr2 : Nat → String)
    (bcryptHash : String → String) (store : Store) (uid : Nat) (u : UserDoc) (T : String)
    (hne : T ≠ "")
    (h1 : findById store uid = some u)
    (h2 : u.refreshToken = some T)
    (h3 : jv1 T = some uid)
    (hrot : sr1 uid ≠ T)
    (h6 : jv2 T = some uid) :
    ∃ s2 accessToken,
      refreshAccessToken jv1 sa1 sr1 bcryptHash store (some T) none =
        Except.ok (s2, accessToken, sr1 u.id)
      ∧ (∃ u' ∈ s2, u'.id = uid ∧ u'.refreshToken = some (sr1 u.id))
      ∧ refreshAccessToken jv2 sa2 sr2 bcryptHash s2 (some T) none =
          Except.error { statusCode := 401, message := "Invalid refresh token" } := by
  have hid : u.id = uid := findById_id_eq h1
  have h1' : findById store u.id = some u := by rw [hid]; exact h1
  have hscr : jsTruthyStr (jsOrStr (some T) none) = some T := by
    simp [jsOrStr, jsTruthyStr_some_ne T hne]
  have hbne : (u.refreshToken != some T) = false := by
    simp [h2]
  have hfirst : refreshAccessToken jv1 sa1 sr1 bcryptHash store (some T) none =
      Except.ok (updateUser (updateUser store { u with refreshToken := some (sr1 u.id) })
          { u with refreshToken := some (sr1 u.id) }
        , sa1 u.id u.email u.username, sr1 u.id) := by
    simp only [refreshAccessToken, hscr, h3, h1, hbne, Bool.false_eq_true, if_false,
      generateAccessAndRefreshTokens, h1']
    rfl
  have hstep1 : findById (updateUser store { u with refreshToken := some (sr1 u.id) }) uid =
      some { u with refreshToken := some (sr1 u.id) } :=
    findById_updateUser_self h1 rfl
  have hstep2 : findById (updateUser (updateUser store
        { u with refreshToken := some (sr1 u.id) })
        { u with refreshToken := some (sr1 u.id) }) uid =
      some { u with refreshToken := some (sr1 u.id) } :=
    findById_updateUser_self hstep1 rfl
  have hbne2 : (({ u with refreshToken := some (sr1 u.id) } : UserDoc).refreshToken
      != some T) = true := by
    simp [hid, hrot]
  have hsecond : refreshAccessToken jv2 sa2 sr2 bcryptHash
      (updateUser (updateUser store { u with refreshToken := some (sr1 u.id) })
        { u with refreshToken := some (sr1 u.id) }) (some T) none =
      Except.error { statusCode := 401, message := "Invalid refresh token" } := by
    simp only [refreshAccessToken, hscr, h6, hstep2, hbne2, if_true]
  exact ⟨updateUser (updateUser store { u with refreshToken := some (sr1 u.id) })
      { u with refreshToken := some (sr1 u.id) }
    , sa1 u.id u.email u.username, hfirst
    , ⟨{ u with refreshToken := some (sr1 u.id) },
        List.mem_of_find?_eq_some hstep2, hid, rfl⟩
    , hsecond⟩

/-- C3 witness: the theorem applied to a concrete store — the first
refresh with "T1" succeeds and rotates the stored token to "T2"; the
second refresh presenting "T1", which still verifies, fails 401. -/
theorem refreshAccessToken_rotation_invalidates_old_witness :
    ∃ s2 accessToken,
      refreshAccessToken (fun t => if t == "T1" then some 1 else none)
        (fun _ _ _ => "A") (fun _ => "T2") (fun s => s)
        [{ id := 1, username := "al", email := "a@x", password := "h"
         , isEmailVerified := true, refreshToken := some "T1"
         , forgotPasswordToken := none, forgotPasswordExpiry := none
         , emailVerificationToken := none, emailVerificationExpiry := none }]
        (some "T1") none = Except.ok (s2, accessToken, "T2")
      ∧ (∃ u' ∈ s2, u'.id = 1 ∧ u'.refreshToken = some "T2")
      ∧ refreshAccessToken (fun t => if t == "T1" then some 1 else none)
          (fun _ _ _ => "A") (fun _ => "T2") (fun s => s) s2 (some "T1") none =
          Except.error { statusCode := 401, message := "Invalid refresh token" } :=
  refreshAccessToken_rotation_invalidates_old
    (fun t => if t == "T1" then some 1 else none)
    (fun t => if t == "T1" then some 1 else none)
    (fun _ _ _ => "A") (fun _ _ _ => "A") (fun _ => "T2") (fun _ => "T2")
    (fun s => s)
    [{ id := 1, username := "al", email := "a@x", password := "h"
     , isEmailVerified := true, refreshToken := some "T1"
     , forgotPasswordToken := none, forgotPasswordExpiry := none
     , emailVerificationToken := none, emailVerificationExpiry := none }]
    1
    { id := 1, username := "al", email := "a@x", password := "h"
    , isEmailVerified := true, refreshToken := some "T1"
    , forgotPasswordToken := none, forgotPasswordExpiry := none
    , emailVerificationToken := none, emailVerificationExpiry := none }
    "T1" (by decide) rfl rfl rfl (by decide) rfl

end AuthBackend
